import Mathlib

/-!
Shallow embedding of the Desk AI backend (src/python/backend.py) and proofs
about its tool-execution and prompt-orchestration core.

Conventions used throughout:
* Python exceptions become an explicit `Err` sum: `ToolExecutionError` is
  `Err.toolError`, any other OS-level exception (notably `OSError` from
  `Path.rmdir` on a non-empty directory) is `Err.osError`.
* Filesystem paths are lists of segments; `Path.resolve()` is modelled
  lexically by `normSegs` (".." pops, "." and empty segments vanish,
  clamped at the root), and `str(Path)` by `renderPath`.
* OS calls (stat, subprocess, the human approval decision awaited on an
  asyncio future) are supplied by explicit oracle values, so every
  definition stays computable.
* Byte lengths are approximated by character counts; this is noted where
  it matters.
-/

set_option maxRecDepth 20000

deriving instance DecidableEq for Except

/-- Python exceptions relevant to the tool layer. `handle_tool_call`
catches only `ToolExecutionError` (`toolError`); everything else escapes. -/
inductive Err
| toolError (msg : String)
| osError (msg : String)
deriving DecidableEq, Repr

/-- JSON scalar for tool arguments; the code checks `isinstance(content, str)`. -/
inductive JVal
| s (v : String)
| other
deriving DecidableEq, Repr

/-- One outbound NDJSON event (the fields each claim needs). -/
inductive Event
| statusEv (status message : String)
| tokenEv (id text : String)
| finalEv (id text : String)
| errorEv (message : String)
| toolCallStart (name promptId : String)
| toolCallEnd (result : String) (error : Option String)
| toolRequest (action : String)
| toolLog (message : String)
| shellStart (sessionId cmd : String)
| shellData (sessionId chunk stream : String)
| shellEnd (sessionId : String) (exitCode : Int)
deriving DecidableEq, Repr

/-- One `{role, content}` entry of Conversation History. -/
structure Turn where
  role : String
  content : String
deriving DecidableEq, Repr

/-! ## Path model

`backend.py` manipulates `pathlib.Path` values. We model an absolute path
as its list of segments and re-implement the string-level operations the
code relies on with structural recursion so that the kernel can evaluate
them on concrete inputs. -/

/-- Split a string on the slash character (mirrors `str.split("/")`,
keeping empty pieces; callers filter them). -/
def splitSlashAux : List Char → List Char → List String
| [], acc => [String.mk acc.reverse]
| c :: rest, acc =>
    if c = '/' then String.mk acc.reverse :: splitSlashAux rest []
    else splitSlashAux rest (c :: acc)

def splitSlash (s : String) : List String :=
  splitSlashAux s.data []

/-- Non-empty segments of a slash-separated path string. -/
def pathSegs (s : String) : List String :=
  (splitSlash s).filter (fun seg => ¬ seg = "")

/-- Python `str.startswith`, via the underlying character lists. -/
def pyStartsWith (s pre : String) : Bool :=
  pre.data.isPrefixOf s.data

/-- `str(Path)` for an absolute path given by its segments. -/
def renderPath (p : List String) : String :=
  "/" ++ String.intercalate "/" p

/-- Lexical `Path.resolve()`: "." and "" vanish, ".." pops one segment
(clamped at the root, as `/..` is `/`). -/
def normSegs (segs : List String) : List String :=
  segs.foldl
    (fun acc s =>
      if s = "." ∨ s = "" then acc
      else if s = ".." then acc.dropLast
      else acc ++ [s])
    []

/-- The `/` operator of `pathlib`: an absolute right operand replaces the
left one, otherwise the segments are appended. -/
def joinPath (base : List String) (rel : String) : List String :=
  if pyStartsWith rel "/" then pathSegs rel else base ++ pathSegs rel

/-- Python `str.strip()` (whitespace at both ends). -/
def pyStrip (s : String) : String :=
  String.mk (((s.data.dropWhile Char.isWhitespace).reverse.dropWhile Char.isWhitespace).reverse)

/-- Python `s[:n]` for strings, by characters. -/
def pyTake (s : String) (n : Nat) : String :=
  String.mk (s.data.take n)

/-- Python `s[-n:]` for strings, by characters. -/
def pyLast (s : String) (n : Nat) : String :=
  String.mk (s.data.drop (s.data.length - n))

/-! ## Filesystem model

A filesystem is an association list from resolved segment paths to
entries. This is the state the filesystem tools read and mutate. -/

inductive FEntry
| file (content : String)
| dir
deriving DecidableEq, Repr

abbrev FS := List (List String × FEntry)

def FS.lookupPath (fs : FS) (p : List String) : Option FEntry :=
  (fs.find? (fun e => decide (e.1 = p))).map (fun e => e.2)

def FS.exists_ (fs : FS) (p : List String) : Bool :=
  (fs.lookupPath p).isSome

def FS.isFile (fs : FS) (p : List String) : Bool :=
  match fs.lookupPath p with
  | some (FEntry.file _) => true
  | _ => false

def FS.isDir (fs : FS) (p : List String) : Bool :=
  match fs.lookupPath p with
  | some FEntry.dir => true
  | _ => false

def FS.erasePath (fs : FS) (p : List String) : FS :=
  fs.filter (fun e => ¬ e.1 = p)

def FS.insertPath (fs : FS) (p : List String) (ent : FEntry) : FS :=
  fs.erasePath p ++ [(p, ent)]

/-- `q` is a strict descendant of `p`. -/
def strictUnder (p q : List String) : Bool :=
  p.isPrefixOf q && ¬ q = p

def FS.hasChild (fs : FS) (p : List String) : Bool :=
  fs.any (fun e => strictUnder p e.1)

/-- `Path.rglob("*")`: every strict descendant recorded in the filesystem. -/
def FS.descend (fs : FS) (p : List String) : List (List String) :=
  (fs.filter (fun e => strictUnder p e.1)).map (fun e => e.1)

/-- `Path.rmdir()`: raises `OSError` on a non-empty directory, otherwise
removes the entry. -/
def FS.rmdirPath (fs : FS) (p : List String) : Except Err FS :=
  if fs.hasChild p then Except.error (Err.osError ("Directory not empty: " ++ renderPath p))
  else Except.ok (fs.erasePath p)

def FS.unlinkPath (fs : FS) (p : List String) : FS :=
  fs.erasePath p

/-- Immediate children of a directory (for `Path.iterdir()`). -/
def FS.childEntries (fs : FS) (p : List String) : List (List String × FEntry) :=
  fs.filter (fun e => decide (e.1.length = p.length + 1) && p.isPrefixOf e.1)

/-- `path.parent.mkdir(parents=True, exist_ok=True)`: create every missing
proper ancestor of `p` as a directory. -/
def mkdirParents (fs : FS) (p : List String) : FS :=
  ((List.range p.length).filter (fun k => ¬ k = 0)).foldl
    (fun acc k => if acc.exists_ (p.take k) then acc else acc.insertPath (p.take k) FEntry.dir)
    fs

/-- Stable insertion sort on a boolean order (`sorted(...)`). -/
def insertLe {α : Type} (le : α → α → Bool) (x : α) : List α → List α
| [] => [x]
| y :: ys => if le x y then x :: y :: ys else y :: insertLe le x ys

def insSort {α : Type} (le : α → α → Bool) : List α → List α
| [] => []
| x :: xs => insertLe le x (insSort le xs)

/-- Lexicographic order on character lists, hence on strings. -/
def chLe : List Char → List Char → Bool
| [], _ => true
| _ :: _, [] => false
| a :: as, b :: bs => if a = b then chLe as bs else decide (a < b)

def strLe (a b : String) : Bool := chLe a.data b.data

def segsLe (a b : List String) : Bool := strLe (renderPath a) (renderPath b)

/-- `_resolve_path` (backend.py:904-912): join the argument onto the
workspace root, resolve lexically, and admit the result iff its string
form starts with the string form of the root. An absent or empty
argument is a `ToolExecutionError`. -/
def resolve_path (workdir : List String) (relative : Option String) : Except Err (List String) :=
  match relative with
  | none => Except.error (Err.toolError "Path argument is required.")
  | some r =>
    if r = "" then Except.error (Err.toolError "Path argument is required.")
    else
      let candidate := normSegs (joinPath workdir r)
      if pyStartsWith (renderPath candidate) (renderPath workdir) then Except.ok candidate
      else Except.error (Err.toolError "Access outside of workspace is denied.")

/-! ## Session configuration (backend.py:61-100, 157-176) -/

/-- `BackendConfig` (backend.py:61-70). The workspace root is stored
already resolved (`workdir.resolve()`), as its segment list. -/
structure BackendConfig where
  provider : String
  api_key : String
  model : String
  workdir : List String
  auto_approve_reads : Bool := true
  confirm_writes : Bool := true
  confirm_shell : Bool := true
  show_terminal_on_command : Bool := true
deriving DecidableEq, Repr

/-- The JSON payload of a `config` message; absent keys are `none`. -/
structure ConfigPayload where
  provider : Option String := none
  apiKey : Option String := none
  model : Option String := none
  workdir : Option String := none
  autoApproveReads : Option Bool := none
  confirmWrites : Option Bool := none
  confirmShell : Option Bool := none
  showTerminalOnCommand : Option Bool := none
deriving DecidableEq, Repr

/-- Oracle for the OS calls made while validating a configuration:
`Path.expanduser`, `Path.exists`, `Path.is_dir`, and `Path.resolve`
(the latter returning the canonical absolute segments). -/
structure OsFs where
  expandUser : String → String
  pathExists : String → Bool
  pathIsDir : String → Bool
  resolveAbs : String → List String

/-- `BackendConfig.from_payload` (backend.py:72-100). Field access order
matches the `try` block: provider, apiKey, model, workdir. Error texts
follow the source (quotes around field and provider names dropped). -/
def from_payload (os : OsFs) (p : ConfigPayload) : Except String BackendConfig :=
  match p.provider with
  | none => Except.error "Missing configuration field: provider"
  | some provider =>
  match p.apiKey with
  | none => Except.error "Missing configuration field: apiKey"
  | some api_key =>
  match p.model with
  | none => Except.error "Missing configuration field: model"
  | some model =>
  match p.workdir with
  | none => Except.error "Missing configuration field: workdir"
  | some workdirRaw =>
    if ¬ (provider = "openai" ∨ provider = "anthropic") then
      Except.error "Provider must be openai or anthropic."
    else if api_key = "" then
      Except.error "API key must not be empty."
    else if ¬ (os.pathExists (os.expandUser workdirRaw) && os.pathIsDir (os.expandUser workdirRaw)) then
      Except.error "Working directory must reference an existing directory."
    else
      Except.ok
        { provider := provider
          api_key := api_key
          model := model
          workdir := os.resolveAbs (os.expandUser workdirRaw)
          auto_approve_reads := p.autoApproveReads.getD true
          confirm_writes := p.confirmWrites.getD true
          confirm_shell := p.confirmShell.getD true
          show_terminal_on_command := p.showTerminalOnCommand.getD true }

/-- Marker for the provider client objects built by `apply_config`. -/
inductive ClientTag
| openaiC
| anthropicC
deriving DecidableEq, Repr

/-- The parts of `DeskBackend` state that `apply_config` touches. -/
structure BState where
  config : Option BackendConfig := none
  history : List Turn := []
  openai_client : Option ClientTag := none
  anthropic_client : Option ClientTag := none
deriving DecidableEq, Repr

/-- Python `str.title()` restricted to the one-word provider names the
code feeds it: capitalise the first character. -/
def pyTitle (s : String) : String :=
  match s.data with
  | [] => ""
  | c :: cs => String.mk (c.toUpper :: cs)

/-- `DeskBackend.apply_config` (backend.py:157-176): on a validation
failure emit a status error and leave all state untouched; on success
install the config, clear history, and rebuild exactly one client. -/
def apply_config (os : OsFs) (st : BState) (p : ConfigPayload) : BState × List Event :=
  match from_payload os p with
  | Except.error e => (st, [Event.statusEv "error" e])
  | Except.ok cfg =>
    let st1 : BState :=
      if cfg.provider = "openai" then
        { config := some cfg, history := [],
          openai_client := some ClientTag.openaiC, anthropic_client := none }
      else
        { config := some cfg, history := [],
          openai_client := none, anthropic_client := some ClientTag.anthropicC }
    (st1, [Event.statusEv "ready" (pyTitle cfg.provider ++ " connection ready.")])

/-! ## Tool arguments and approval policy (backend.py:635-743) -/

/-- The argument mapping of a tool call; absent keys are `none`. The
defaults the code applies via `dict.get` live at the use sites. -/
structure ToolArgs where
  path : Option String := none
  command : Option String := none
  content : Option JVal := none
  recursive : Option Bool := none
  timeout : Option Int := none
  max_b : Option Nat := none
deriving DecidableEq, Repr

/-- `arguments.update(overrides)`: keys present in the overrides replace
the original entries. -/
def updateArgs (a o : ToolArgs) : ToolArgs :=
  { path := o.path.orElse (fun _ => a.path)
    command := o.command.orElse (fun _ => a.command)
    content := o.content.orElse (fun _ => a.content)
    recursive := o.recursive.orElse (fun _ => a.recursive)
    timeout := o.timeout.orElse (fun _ => a.timeout)
    max_b := o.max_b.orElse (fun _ => a.max_b) }

/-- One human approval decision, as delivered to the awaited future. -/
structure Decision where
  approved : Bool
  overrides : ToolArgs := {}
deriving DecidableEq, Repr

/-- Approval policy of `handle_tool_call` (backend.py:653-663). -/
def approvalRequired (cfg : BackendConfig) (name : String) : Bool :=
  if name = "run_shell" then cfg.confirm_shell
  else if name = "write_file" ∨ name = "delete_path" then cfg.confirm_writes
  else if name = "read_file" ∨ name = "list_directory" then ¬ cfg.auto_approve_reads
  else false

/-- `action_map` in `request_approval` (backend.py:725-731). -/
def actionMap (name : String) : String :=
  if name = "run_shell" then "shell"
  else if name = "read_file" then "read"
  else if name = "write_file" then "write"
  else if name = "list_directory" then "list"
  else if name = "delete_path" then "delete"
  else name

/-! ## Shell Executor (backend.py:745-829)

The subprocess, the two concurrent drain tasks, and the timeout race are
summarised by a `ShellOracle`: what the OS and the scheduler did. The
embedding replays the control flow of `execute_shell` over that oracle.
Interleaving of the stdout and stderr drains is abstracted: the model
emits all stdout chunks, then all stderr chunks, matching the buffer
concatenation `stdout_buffer + stderr_buffer` the code uses for the
result. -/

structure ShellOracle where
  /-- The uuid4 session identifier. -/
  sessionId : String := "sid"
  /-- Whether `asyncio.wait_for` raised `TimeoutError`. -/
  timedOut : Bool := false
  /-- Lines drained from stdout / stderr (already decoded). -/
  stdoutChunks : List String := []
  stderrChunks : List String := []
  /-- Result of `await process.wait()` in the try block (no-timeout path). -/
  waitExit : Int := 0
  /-- `process.returncode` as observed in the `finally` block. -/
  returncodeAtFinally : Option Int := none
  /-- Result of `await process.wait()` in the `finally` block when
  `returncode` was still `None` there. -/
  waitAtFinally : Int := 0
  /-- Whether each drain task was already done when `finally` ran. -/
  stdoutDoneAtFinally : Bool := false
  stderrDoneAtFinally : Bool := false
deriving DecidableEq, Repr

/-- Everything `execute_shell` did: its returned text (or the raised
`ToolExecutionError`), the events it emitted, the live-session table it
left behind, and the process/task operations it performed. -/
structure ShellResult where
  output : Except Err String
  events : List Event
  tbl : List String
  terminated : Bool
  cancelledDrains : Nat
deriving DecidableEq, Repr

/-- `DeskBackend.execute_shell` (backend.py:745-829), replayed over a
`ShellOracle`. `tbl` is the key set of `self.shell_processes`. -/
def execute_shell (args : ToolArgs) (o : ShellOracle) (tbl : List String) : ShellResult :=
  match args.command with
  | none =>
    { output := Except.error (Err.toolError "Shell command missing.")
      events := [], tbl := tbl, terminated := false, cancelledDrains := 0 }
  | some command =>
    if command = "" then
      { output := Except.error (Err.toolError "Shell command missing.")
        events := [], tbl := tbl, terminated := false, cancelledDrains := 0 }
    else
      let timeout := args.timeout.getD 120
      let startEvs := [Event.shellStart o.sessionId command]
      let tbl1 := tbl ++ [o.sessionId]
      let dataEvs :=
        (o.stdoutChunks.map (fun c => Event.shellData o.sessionId c "stdout")) ++
        (o.stderrChunks.map (fun c => Event.shellData o.sessionId c "stderr"))
      -- try / except asyncio.TimeoutError
      let timeoutEvs :=
        if o.timedOut then
          [Event.errorEv ("Command timed out after " ++ toString timeout ++ "s: " ++ command)]
        else []
      -- finally: cancel unfinished drains (suppressing CancelledError),
      -- pop the session, and recompute the exit code from the process.
      let cancelled :=
        (if o.stdoutDoneAtFinally then 0 else 1) + (if o.stderrDoneAtFinally then 0 else 1)
      let tbl2 := tbl1.filter (fun s => ¬ s = o.sessionId)
      let exitCode :=
        match o.returncodeAtFinally with
        | none => o.waitAtFinally
        | some rc => rc
      let endEvs := [Event.shellEnd o.sessionId exitCode]
      let combined := String.join (o.stdoutChunks ++ o.stderrChunks)
      let truncated := if combined.data.length > 6000 then pyLast combined 6000 else combined
      { output := Except.ok (if truncated = "" then "(no output)" else truncated)
        events := startEvs ++ dataEvs ++ timeoutEvs ++ endEvs
        tbl := tbl2
        terminated := o.timedOut
        cancelledDrains := cancelled }

/-! ## Filesystem tools (backend.py:831-902)

Each tool returns its textual result (or raised error), the filesystem it
left behind, and the events it emitted. Mutations and log events happen
only after every check has passed, exactly as in the source; the
`recursive` branch of `delete_path` threads the partially mutated
filesystem through any raised error, since a real exception would not
roll back deletions already performed. -/

/-- `Path.name` of a segment path. -/
def lastName (p : List String) : String := p.getLastD ""

/-- `str(path.relative_to(workdir))` for the log lines. -/
def relTo (workdir p : List String) : String :=
  let rest := p.drop workdir.length
  if rest = [] then "." else String.intercalate "/" rest

/-- `DeskBackend.read_file` (backend.py:831-846). Byte cap approximated
by a character cap; `decode(errors="replace")` is the identity here. -/
def read_file (workdir : List String) (args : ToolArgs) (fs : FS) :
    Except Err String × List Event :=
  match resolve_path workdir args.path with
  | Except.error e => (Except.error e, [])
  | Except.ok path =>
    let max_b := args.max_b.getD 20000
    if ¬ fs.exists_ path then
      (Except.error (Err.toolError ("File does not exist: " ++ renderPath path)), [])
    else if ¬ fs.isFile path then
      (Except.error (Err.toolError ("Path is not a file: " ++ renderPath path)), [])
    else
      let data :=
        match fs.lookupPath path with
        | some (FEntry.file c) => c
        | _ => ""
      let data := if data.data.length > max_b then pyTake data max_b else data
      (Except.ok data,
       [Event.toolLog ("read " ++ relTo workdir path ++ " (" ++ toString data.data.length ++ " bytes)")])

/-- `DeskBackend.write_file` (backend.py:848-861). -/
def write_file (workdir : List String) (args : ToolArgs) (fs : FS) :
    Except Err String × FS × List Event :=
  match resolve_path workdir args.path with
  | Except.error e => (Except.error e, fs, [])
  | Except.ok path =>
    match args.content.getD (JVal.s "") with
    | JVal.other => (Except.error (Err.toolError "Content must be a string."), fs, [])
    | JVal.s content =>
      let fs1 := mkdirParents fs path
      let fs2 := fs1.insertPath path (FEntry.file content)
      (Except.ok ("Wrote " ++ toString content.data.length ++ " bytes to " ++ lastName path ++ "."),
       fs2,
       [Event.toolLog ("write " ++ relTo workdir path ++ " (" ++ toString content.data.length ++ " bytes)")])

/-- `DeskBackend.list_directory` (backend.py:863-879). -/
def list_directory (workdir : List String) (args : ToolArgs) (fs : FS) :
    Except Err String × List Event :=
  let rel := match args.path with
             | none => "."
             | some s => if s = "" then "." else s
  match resolve_path workdir (some rel) with
  | Except.error e => (Except.error e, [])
  | Except.ok dir =>
    if ¬ fs.exists_ dir then
      (Except.error (Err.toolError ("Directory does not exist: " ++ renderPath dir)), [])
    else if ¬ fs.isDir dir then
      (Except.error (Err.toolError ("Path is not a directory: " ++ renderPath dir)), [])
    else
      let items := insSort (fun a b => segsLe a.1 b.1) (fs.childEntries dir)
      let entries := items.map (fun e => lastName e.1 ++ (if e.2 = FEntry.dir then "/" else ""))
      (Except.ok (String.intercalate "\n" (entries.take 400)),
       [Event.toolLog ("list " ++ relTo workdir dir ++ " (" ++ toString entries.length ++ " entries)")])

/-- The loop over `sorted(target.rglob("*"), reverse=True)` in
`delete_path`: files and symlinks are unlinked, directories removed with
`rmdir`. An `OSError` raised mid-loop leaves the deletions already done
in place. -/
def deleteSubs (fs : FS) : List (List String) → Except Err FS × FS
| [] => (Except.ok fs, fs)
| s :: rest =>
  if fs.isFile s then deleteSubs (fs.unlinkPath s) rest
  else if fs.isDir s then
    match fs.rmdirPath s with
    | Except.error e => (Except.error e, fs)
    | Except.ok fs1 => deleteSubs fs1 rest
  else deleteSubs fs rest

/-- `DeskBackend.delete_path` (backend.py:881-902). -/
def delete_path (workdir : List String) (args : ToolArgs) (fs : FS) :
    Except Err String × FS × List Event :=
  match resolve_path workdir args.path with
  | Except.error e => (Except.error e, fs, [])
  | Except.ok target =>
    if ¬ fs.exists_ target then
      (Except.error (Err.toolError ("Path does not exist: " ++ renderPath target)), fs, [])
    else if fs.isDir target then
      if args.recursive.getD false then
        match deleteSubs fs (List.reverse (insSort segsLe (fs.descend target))) with
        | (Except.error e, fsPart) => (Except.error e, fsPart, [])
        | (Except.ok _, fs1) =>
          match fs1.rmdirPath target with
          | Except.error e => (Except.error e, fs1, [])
          | Except.ok fs2 =>
            (Except.ok ("Deleted " ++ lastName target ++ "."), fs2,
             [Event.toolLog ("delete " ++ relTo workdir target)])
      else
        match fs.rmdirPath target with
        | Except.error e => (Except.error e, fs, [])
        | Except.ok fs1 =>
          (Except.ok ("Deleted " ++ lastName target ++ "."), fs1,
           [Event.toolLog ("delete " ++ relTo workdir target)])
    else
      (Except.ok ("Deleted " ++ lastName target ++ "."), fs.unlinkPath target,
       [Event.toolLog ("delete " ++ relTo workdir target)])

/-! ## Tool Dispatcher (backend.py:635-743) -/

/-- The mutable backend state a tool call can touch, plus the oracles for
the two suspension points: the human decisions delivered to approval
futures (consumed in order) and the shell oracles (one per spawned
process, consumed in order). -/
structure World where
  fs : FS := []
  tbl : List String := []
  decisions : List Decision := []
  shells : List ShellOracle := []
deriving DecidableEq, Repr

/-- Outcome of the `try` block of `handle_tool_call` (backend.py:687-699):
the textual result or raised error, the world afterwards, and the events
the concrete tool emitted. -/
structure ToolOut where
  result : Except Err String
  w : World
  events : List Event
deriving DecidableEq, Repr

/-- Dispatch on the tool name (backend.py:687-699). `run_shell` consumes
one `ShellOracle`; an unknown name is a textual result, not an error. -/
def run_tool (cfg : BackendConfig) (name : String) (args : ToolArgs) (w : World) : ToolOut :=
  if name = "run_shell" then
    let o := w.shells.headD {}
    let r := execute_shell args o w.tbl
    { result := r.output, w := { w with tbl := r.tbl, shells := w.shells.tail }, events := r.events }
  else if name = "read_file" then
    let r := read_file cfg.workdir args w.fs
    { result := r.1, w := w, events := r.2 }
  else if name = "write_file" then
    let r := write_file cfg.workdir args w.fs
    { result := r.1, w := { w with fs := r.2.1 }, events := r.2.2 }
  else if name = "list_directory" then
    let r := list_directory cfg.workdir args w.fs
    { result := r.1, w := w, events := r.2 }
  else if name = "delete_path" then
    let r := delete_path cfg.workdir args w.fs
    { result := r.1, w := { w with fs := r.2.1 }, events := r.2.2 }
  else
    { result := Except.ok ("Unknown tool: " ++ name), w := w, events := [] }

/-- Result of one `handle_tool_call`: `outcome` is the string returned to
the model, or the exception that escaped (only `osError` can). -/
structure HOut where
  outcome : Except Err String
  w : World
  events : List Event
deriving DecidableEq, Repr

/-- Truncation of the result preview on the end event (backend.py:715). -/
def previewOf (output : String) : String :=
  pyTake output 200 ++ (if output.data.length > 200 then "..." else "")

/-- Lines 700-718 of backend.py: convert a `ToolExecutionError` into a
textual failure plus an error event and an end event with an error
marker; let any other exception escape (no end event); on success emit
the end event with a truncated preview. -/
def finish_tool (evsBefore : List Event) (t : ToolOut) : HOut :=
  match t.result with
  | Except.ok output =>
    { outcome := Except.ok output, w := t.w,
      events := evsBefore ++ t.events ++ [Event.toolCallEnd (previewOf output) none] }
  | Except.error (Err.toolError e) =>
    { outcome := Except.ok ("Tool execution failed: " ++ e), w := t.w,
      events := evsBefore ++ t.events ++
        [Event.errorEv e,
         Event.toolCallEnd ("Tool execution failed: " ++ e) (some e)] }
  | Except.error (Err.osError e) =>
    { outcome := Except.error (Err.osError e), w := t.w,
      events := evsBefore ++ t.events }

/-- `DeskBackend.handle_tool_call` (backend.py:635-718). When the policy
requires approval, the next human decision is consumed; a denial
short-circuits with the fixed message, an end event marked "denied", and
no tool execution. Approved overrides are merged into the arguments. -/
def handle_tool_call (cfg : BackendConfig) (name : String) (args : ToolArgs)
    (promptId : String) (w : World) : HOut :=
  let startEvs := [Event.toolCallStart name promptId]
  if approvalRequired cfg name then
    let dec := w.decisions.headD { approved := true }
    let w1 := { w with decisions := w.decisions.tail }
    let reqEvs := [Event.toolRequest (actionMap name)]
    if ¬ dec.approved then
      { outcome := Except.ok "User denied the request."
        w := w1
        events := startEvs ++ reqEvs ++
          [Event.toolCallEnd "User denied the request." (some "denied")] }
    else
      finish_tool (startEvs ++ reqEvs) (run_tool cfg name (updateArgs args dec.overrides) w1)
  else
    finish_tool startEvs (run_tool cfg name args w)

/-! ## Approval Broker resolution (backend.py:231-252) -/

/-- An `asyncio.Future` held in `pending_approvals`: all the resolver
inspects is whether it is already done. -/
structure ApprovalFuture where
  done : Bool := false
deriving DecidableEq, Repr

/-- The `approval` message payload. -/
structure ResolvePayload where
  requestId : Option String := none
  approved : Bool := false
  overrides : Option ToolArgs := none
deriving DecidableEq, Repr

abbrev Pending := List (String × ApprovalFuture)

def Pending.lookupId (t : Pending) (rid : String) : Option ApprovalFuture :=
  (t.find? (fun e => decide (e.1 = rid))).map (fun e => e.2)

def Pending.removeId (t : Pending) (rid : String) : Pending :=
  t.filter (fun e => ¬ e.1 = rid)

/-- What one `resolve_approval` call did. `delivered` is the value set on
the future (the rendezvous with the waiting tool call); `warned` records
the warning-level log for an already-done future. -/
structure ResolveOut where
  pending : Pending
  events : List Event
  delivered : Option (String × Bool × ToolArgs)
  warned : Bool
deriving DecidableEq, Repr

/-- `DeskBackend.resolve_approval` (backend.py:231-252). The handle is
popped in the same step that delivers the decision; an unknown id is an
error event; a done future is a warning and no delivery. -/
def resolve_approval (pending : Pending) (p : ResolvePayload) : ResolveOut :=
  match p.requestId with
  | none =>
    { pending := pending, events := [Event.errorEv "Approval payload missing requestId."],
      delivered := none, warned := false }
  | some rid =>
    if rid = "" then
      { pending := pending, events := [Event.errorEv "Approval payload missing requestId."],
        delivered := none, warned := false }
    else
      match pending.lookupId rid with
      | none =>
        { pending := pending,
          events := [Event.errorEv ("No pending approval for " ++ rid)],
          delivered := none, warned := false }
      | some fut =>
        let pending1 := pending.removeId rid
        if fut.done then
          { pending := pending1, events := [], delivered := none, warned := true }
        else
          { pending := pending1, events := [],
            delivered := some (rid, p.approved, p.overrides.getD {}), warned := false }

/-! ## Prompt Orchestrator (backend.py:266-551, Anthropic streaming path)

The provider stream is abstracted to a script: a list of rounds, each
carrying the text deltas it streams and the completed tool-use blocks it
ends with. Within a round the model emits the token events (in delta
order) and then the tool-call events; `message_stop` ends the round. The
uuid4 identifiers generated for follow-up rounds come from an `ids`
supply. An exception escaping a tool call (only `osError` can) aborts
the prompt task, as in the source, where it is reported by the prompt
task's done-callback. -/

/-- One completed `tool_use` content block. -/
structure ToolUse where
  id : String
  name : String
  args : ToolArgs
deriving DecidableEq, Repr

/-- One streaming round of the provider script. -/
structure Round where
  deltas : List String := []
  toolUses : List ToolUse := []
deriving DecidableEq, Repr

/-- The `tool_result` blocks collected for the follow-up request. -/
structure ToolResult where
  tool_use_id : String
  content : String
deriving DecidableEq, Repr

/-- Token events for the text deltas of a round (empty deltas are not
emitted, backend.py:352-356). -/
def tokenEvents (rid : String) (deltas : List String) : List Event :=
  (deltas.filter (fun d => ¬ d = "")).map (fun d => Event.tokenEv rid d)

/-- Execute the completed tool uses of a round in arrival order
(backend.py:373-395 and 509-527), collecting one `tool_result` per call. -/
def run_tool_uses (cfg : BackendConfig) (rid : String) :
    List ToolUse → World → Except Err (List ToolResult × World × List Event)
| [], w => Except.ok ([], w, [])
| tu :: rest, w =>
  let h := handle_tool_call cfg tu.name tu.args rid w
  match h.outcome with
  | Except.error e => Except.error e
  | Except.ok out =>
    match run_tool_uses cfg rid rest h.w with
    | Except.error e => Except.error e
    | Except.ok (rs, w1, evs) =>
      Except.ok ({ tool_use_id := tu.id, content := out } :: rs, w1, h.events ++ evs)

/-- `DeskBackend._handle_tool_results_recursively` (backend.py:451-551),
projected onto history, events and world. Each level streams the next
round under a fresh follow-up id, emits that round's final event, and
either recurses (more tool calls) or appends the round's stripped text
to history as the assistant turn (only when non-empty). An exhausted
script or id supply ends the recursion with no further effect (a
modelling artifact; the theorems use adequate scripts). -/
def handle_tool_results_recursively (cfg : BackendConfig) :
    List Round → List String → World → List Turn →
    Except Err (List Turn × World × List Event)
| [], _, w, history => Except.ok (history, w, [])
| _ :: _, [], w, history => Except.ok (history, w, [])
| r :: restRounds, followupId :: restIds, w, history =>
  let tokens := tokenEvents followupId r.deltas
  match run_tool_uses cfg followupId r.toolUses w with
  | Except.error e => Except.error e
  | Except.ok (results, w1, tevs) =>
    let followupText := pyStrip (String.join r.deltas)
    let finalEvs := [Event.finalEv followupId followupText]
    if results.isEmpty then
      let history1 := history ++ (if followupText = "" then [] else [⟨"assistant", followupText⟩])
      Except.ok (history1, w1, tokens ++ tevs ++ finalEvs)
    else
      match handle_tool_results_recursively cfg restRounds restIds w1 history with
      | Except.error e => Except.error e
      | Except.ok (h2, w2, evs2) =>
        Except.ok (h2, w2, tokens ++ tevs ++ finalEvs ++ evs2)

/-- `DeskBackend._process_prompt_async` (backend.py:266-449, Anthropic
branch). The first round streams under the prompt id; if it ended with
tool calls the recursion above runs (and its base case appends the
assistant turn to history before control returns here); the prompt-id
final event is then emitted with the first round's text, and the user
turn is appended; the first round's assistant text is appended only when
no follow-up happened and the text is non-empty. -/
def process_prompt_async (cfg : BackendConfig) (promptId text : String) :
    List Round → List String → World → List Turn →
    Except Err (List Turn × World × List Event)
| [], _, w, history => Except.ok (history, w, [])
| r0 :: restRounds, ids, w, history =>
  let tokens := tokenEvents promptId r0.deltas
  match run_tool_uses cfg promptId r0.toolUses w with
  | Except.error e => Except.error e
  | Except.ok (results, w1, tevs) =>
    let noToolLog :=
      if r0.toolUses.isEmpty then [Event.toolLog "Response completed without using tools"] else []
    let finalText := pyStrip (String.join r0.deltas)
    if results.isEmpty then
      let history1 := history ++ [⟨"user", text⟩] ++
        (if finalText = "" then [] else [⟨"assistant", finalText⟩])
      Except.ok (history1, w1, tokens ++ tevs ++ noToolLog ++ [Event.finalEv promptId finalText])
    else
      match handle_tool_results_recursively cfg restRounds ids w1 history with
      | Except.error e => Except.error e
      | Except.ok (h2, w2, evs2) =>
        let history1 := h2 ++ [⟨"user", text⟩]
        Except.ok (history1, w2, tokens ++ tevs ++ noToolLog ++ evs2 ++ [Event.finalEv promptId finalText])

/-! ## Statement-level definitions: event counters, script shapes,
and concrete fixtures used by the theorems below. -/

def isStartEv : Event → Bool
| Event.toolCallStart _ _ => true
| _ => false

def isEndEv : Event → Bool
| Event.toolCallEnd _ _ => true
| _ => false

/-- An event that is neither a tool-call start/end nor a final event. -/
def neutralEv : Event → Bool
| Event.toolCallStart _ _ => false
| Event.toolCallEnd _ _ => false
| Event.finalEv _ _ => false
| _ => true

def countStart (evs : List Event) : Nat := evs.countP isStartEv

def countEnd (evs : List Event) : Nat := evs.countP isEndEv

/-- The identifiers of the final events of a trace, in emission order. -/
def finalIds (evs : List Event) : List String :=
  evs.filterMap (fun e => match e with | Event.finalEv i _ => some i | _ => none)

/-- Final events tagged with a fresh round identifier (not the prompt id). -/
def roundFinals (pid : String) (evs : List Event) : Nat :=
  ((finalIds evs).filter (fun i => ¬ i = pid)).length

/-- A provider script in which every round except the last ends with at
least one tool call and the last round ends with none: the shape of a
prompt that runs to completion through the continuation recursion. -/
def continuesThenStops : List Round → Bool
| [] => false
| [r] => r.toolUses.isEmpty
| r :: rest => ¬ r.toolUses.isEmpty && continuesThenStops rest

/-- The stripped text of the last round of a script. -/
def lastRoundText (rounds : List Round) : String :=
  pyStrip (String.join (rounds.getLastD {}).deltas)

/-- The history `_process_prompt_async` actually leaves behind for a
script of the above shape: one user turn, one assistant turn carrying
the last round text when that text is non-empty, the assistant turn
appended first when continuation rounds occurred. -/
def expectedHistory (history : List Turn) (text : String) (rounds : List Round) : List Turn :=
  let a : List Turn :=
    if lastRoundText rounds = "" then [] else [⟨"assistant", lastRoundText rounds⟩]
  if rounds.length = 1 then history ++ [⟨"user", text⟩] ++ a
  else history ++ a ++ [⟨"user", text⟩]

/-- Fixtures: a configured backend over workspace `/ws`. -/
def sampleOs : OsFs :=
  { expandUser := fun s => s, pathExists := fun _ => true,
    pathIsDir := fun _ => true, resolveAbs := pathSegs }

def sampleCfg : BackendConfig :=
  { provider := "anthropic", api_key := "k", model := "m", workdir := ["ws"] }

def sampleFs : FS :=
  [(["ws"], FEntry.dir), (["ws", "a.txt"], FEntry.file "hi"),
   (["ws", "e.txt"], FEntry.file ""), (["ws", "d"], FEntry.dir),
   (["ws", "d", "x"], FEntry.file "1")]

def sampleWorld : World := { fs := sampleFs }

/-- A filesystem with a sibling of the workspace whose name shares the
workspace root as a string prefix. -/
def escapeFs : FS :=
  [(["ws"], FEntry.dir), (["wsevil"], FEntry.dir),
   (["wsevil", "sec.txt"], FEntry.file "SECRET")]

def escapeWorld : World := { fs := escapeFs }

/-- The timeout run of `execute_shell` used for C5: the drains time out,
the process is terminated, and the `finally` block observes the
terminated process return code -15 (SIGTERM). -/
def c5run : ShellResult :=
  execute_shell { command := some "sleep 5", timeout := some 1 }
    { sessionId := "s1", timedOut := true, returncodeAtFinally := some (-15) } []

/-- A read tool-use block against the sample workspace. -/
def sampleReadUse : ToolUse := { id := "c1", name := "read_file", args := { path := some "a.txt" } }

def sumToolUses (rounds : List Round) : Nat :=
  (rounds.map (fun r => r.toolUses.length)).sum

def c9ToolRound : Round := { toolUses := [sampleReadUse] }

def c9DoneRound : Round := { deltas := ["done"] }

def c9Events : List Event :=
  [Event.toolCallStart "read_file" "p", Event.toolLog "read a.txt (2 bytes)",
   Event.toolCallEnd "hi" none,
   Event.toolCallStart "read_file" "f1", Event.toolLog "read a.txt (2 bytes)",
   Event.toolCallEnd "hi" none, Event.finalEv "f1" "",
   Event.toolCallStart "read_file" "f2", Event.toolLog "read a.txt (2 bytes)",
   Event.toolCallEnd "hi" none, Event.finalEv "f2" "",
   Event.tokenEv "f3" "done", Event.finalEv "f3" "done", Event.finalEv "p" ""]

/-! ## Claim theorems -/

/-- C1: the claim states that any path argument resolving outside the
canonical workspace root always fails with an access-denied result
before any I/O. The containment check of `_resolve_path` is a plain
string `startswith` with no trailing separator, so a sibling directory
whose name extends the workspace root as a string passes it: with root
`/ws`, the argument `../wsevil/sec.txt` resolves to `/wsevil/sec.txt`,
which is not under the root, yet the check admits it and `read_file`
performs the read outside the workspace. -/
theorem c1_containment_check_bypassed :
    resolve_path ["ws"] (some "../wsevil/sec.txt") = Except.ok ["wsevil", "sec.txt"]
    ∧ List.isPrefixOf ["ws"] ["wsevil", "sec.txt"] = false
    ∧ (handle_tool_call sampleCfg "read_file" { path := some "../wsevil/sec.txt" } "p"
        escapeWorld).outcome = Except.ok "SECRET" := by
  refine ⟨by decide, by decide, by decide⟩

/-- C5: on a shell timeout the process is terminated, both unfinished
drain tasks are cancelled with the cancellation swallowed (the call
still returns a result), an explicit timeout error event is emitted, and
the session handle is removed from the live table on every path — all
as claimed. But the reported exit code is not the sentinel -1 the
`except` branch assigns: the `finally` block unconditionally recomputes
the exit code from the terminated process (here -15, SIGTERM), so the
sentinel never reaches the `shell_end` event. -/
theorem c5_timeout_sentinel_overwritten :
    (c5run.terminated = true
      ∧ c5run.cancelledDrains = 2
      ∧ c5run.events = [Event.shellStart "s1" "sleep 5",
          Event.errorEv "Command timed out after 1s: sleep 5",
          Event.shellEnd "s1" (-15)]
      ∧ c5run.tbl = []
      ∧ ¬ Event.shellEnd "s1" (-1) ∈ c5run.events)
    ∧ (∀ (args : ToolArgs) (o : ShellOracle) (tbl : List String) (c : String),
        args.command = some c → ¬ c = "" →
        ¬ o.sessionId ∈ (execute_shell args o tbl).tbl) := by
  refine ⟨by decide, ?_⟩
  intro args o tbl c hc hne
  unfold execute_shell
  rw [hc]
  simp [hne, List.mem_filter]

/-- C5 witness: the removal conjunct applied to the concrete timeout run. -/
theorem c5_timeout_sentinel_overwritten_witness :
    ¬ ("s1" : String) ∈ (execute_shell { command := some "sleep 5", timeout := some 1 }
      { sessionId := "s1", timedOut := true, returncodeAtFinally := some (-15) } []).tbl :=
  c5_timeout_sentinel_overwritten.2
    { command := some "sleep 5", timeout := some 1 }
    { sessionId := "s1", timedOut := true, returncodeAtFinally := some (-15) }
    [] "sleep 5" rfl (by decide)

/-- C2: when the policy requires approval and the human decision is a
denial, the tool is never executed: the filesystem, the shell-session
table and the shell oracle supply are untouched, the textual result is
the fixed denial message, and the emitted events are exactly the start
event, the approval request, and an end event marked "denied". -/
theorem c2_denial_is_side_effect_free :
    ∀ (cfg : BackendConfig) (name : String) (args : ToolArgs) (pid : String)
      (w : World) (d : Decision) (rest : List Decision),
      approvalRequired cfg name = true →
      w.decisions = d :: rest →
      d.approved = false →
      handle_tool_call cfg name args pid w =
        { outcome := Except.ok "User denied the request.",
          w := { w with decisions := rest },
          events := [Event.toolCallStart name pid, Event.toolRequest (actionMap name),
                     Event.toolCallEnd "User denied the request." (some "denied")] } := by
  intro cfg name args pid w d rest hreq hdec happ
  unfold handle_tool_call
  rw [hreq, hdec]
  simp [happ]

/-- C2 witness: a denied shell command on the sample backend. -/
theorem c2_denial_is_side_effect_free_witness :
    handle_tool_call sampleCfg "run_shell" { command := some "rm -rf /" } "p"
      { sampleWorld with decisions := [{ approved := false }] } =
      { outcome := Except.ok "User denied the request.",
        w := { sampleWorld with decisions := [] },
        events := [Event.toolCallStart "run_shell" "p", Event.toolRequest "shell",
                   Event.toolCallEnd "User denied the request." (some "denied")] } := by
  have h := c2_denial_is_side_effect_free sampleCfg "run_shell" { command := some "rm -rf /" }
    "p" { sampleWorld with decisions := [{ approved := false }] } { approved := false } []
    (by decide) rfl rfl
  simpa [actionMap] using h

/-- C10: a configuration payload that omits all four policy flags yields
a config in which every flag is true, so reads and listings are
auto-approved while writes, deletes, and shell commands all require
human approval. -/
theorem c10_policy_flag_defaults :
    ∀ (os : OsFs) (p : ConfigPayload) (cfg : BackendConfig),
      p.autoApproveReads = none → p.confirmWrites = none → p.confirmShell = none →
      p.showTerminalOnCommand = none →
      from_payload os p = Except.ok cfg →
      cfg.auto_approve_reads = true ∧ cfg.confirm_writes = true
      ∧ cfg.confirm_shell = true ∧ cfg.show_terminal_on_command = true
      ∧ approvalRequired cfg "read_file" = false
      ∧ approvalRequired cfg "list_directory" = false
      ∧ approvalRequired cfg "write_file" = true
      ∧ approvalRequired cfg "delete_path" = true
      ∧ approvalRequired cfg "run_shell" = true := by
  intro os p cfg h1 h2 h3 h4 hok
  unfold from_payload at hok
  rw [h1, h2, h3, h4] at hok
  split at hok
  · exact absurd hok (by simp)
  split at hok
  · exact absurd hok (by simp)
  split at hok
  · exact absurd hok (by simp)
  split at hok
  · exact absurd hok (by simp)
  split at hok
  · exact absurd hok (by simp)
  split at hok
  · exact absurd hok (by simp)
  split at hok
  · exact absurd hok (by simp)
  · have hcfg := (Except.ok.injEq _ _).mp hok
    subst hcfg
    refine ⟨rfl, rfl, rfl, rfl, ?_, ?_, ?_, ?_, ?_⟩ <;> simp [approvalRequired]

/-- C10 witness: a concrete payload with the flags omitted. -/
theorem c10_policy_flag_defaults_witness :
    approvalRequired
      { provider := "openai", api_key := "k", model := "m", workdir := ["ws"] }
      "write_file" = true := by
  have h := c10_policy_flag_defaults sampleOs
    { provider := some "openai", apiKey := some "k", model := some "m", workdir := some "/ws" }
    { provider := "openai", api_key := "k", model := "m", workdir := ["ws"] }
    rfl rfl rfl rfl (by decide)
  exact h.2.2.2.2.2.2.1

/-- C4: when the configuration payload fails validation (a missing
field, an unsupported provider, an empty credential, or a workdir that
does not exist or is not a directory — exactly the error cases of
`from_payload`), `apply_config` emits one status-error event and returns
the state completely unchanged: prior config, both provider clients, and
Conversation History. When validation succeeds, the history is always
reset to empty and the new config installed. -/
theorem c4_apply_config_validation :
    (∀ (os : OsFs) (st : BState) (p : ConfigPayload) (e : String),
       from_payload os p = Except.error e →
       apply_config os st p = (st, [Event.statusEv "error" e]))
    ∧ (∀ (os : OsFs) (st : BState) (p : ConfigPayload) (cfg : BackendConfig),
       from_payload os p = Except.ok cfg →
       (apply_config os st p).1.history = [] ∧ (apply_config os st p).1.config = some cfg) := by
  constructor
  · intro os st p e h
    unfold apply_config
    rw [h]
  · intro os st p cfg h
    unfold apply_config
    rw [h]
    dsimp only
    by_cases hp : cfg.provider = "openai" <;> simp [hp]

/-- C4 witness: an unsupported provider leaves the state alone; a valid
payload resets the history. -/
theorem c4_apply_config_validation_witness :
    (apply_config sampleOs { history := [⟨"user", "old"⟩] }
        { provider := some "gemini", apiKey := some "k", model := some "m", workdir := some "/w" } =
      ({ history := [⟨"user", "old"⟩] },
       [Event.statusEv "error" "Provider must be openai or anthropic."]))
    ∧ (apply_config sampleOs { history := [⟨"user", "old"⟩] }
        { provider := some "anthropic", apiKey := some "k", model := some "m",
          workdir := some "/w" }).1.history = [] := by
  constructor
  · exact c4_apply_config_validation.1 sampleOs { history := [⟨"user", "old"⟩] }
      { provider := some "gemini", apiKey := some "k", model := some "m", workdir := some "/w" }
      "Provider must be openai or anthropic." (by decide)
  · exact (c4_apply_config_validation.2 sampleOs { history := [⟨"user", "old"⟩] }
      { provider := some "anthropic", apiKey := some "k", model := some "m", workdir := some "/w" }
      { provider := "anthropic", api_key := "k", model := "m", workdir := ["w"] }
      (by decide)).1

/-- The entry popped by `resolve_approval` is really gone. -/
theorem lookupId_removeId (t : Pending) (rid : String) :
    (t.removeId rid).lookupId rid = none := by
  induction t with
  | nil => rfl
  | cons e rest ih =>
    by_cases h : e.1 = rid
    · simp only [Pending.removeId, List.filter, h, decide_True, Bool.not_true]
      exact ih
    · simp only [Pending.removeId, List.filter, h, decide_False, Bool.not_false]
      simp only [Pending.lookupId, List.find?, h, decide_False]
      exact ih

/-- C6: resolving a known request removes its handle in the same step
(the popped id can no longer be found); resolving an unknown request id
yields exactly one error event, delivers nothing, and leaves the table
unchanged — the handler returns normally; resolving a handle whose
future is already done delivers nothing (no second delivery to the
waiting tool call), raises no error, and is reported as a warning-level
log only. -/
theorem c6_resolve_approval_discipline :
    (∀ (pending : Pending) (p : ResolvePayload) (rid : String) (fut : ApprovalFuture),
       p.requestId = some rid → ¬ rid = "" → pending.lookupId rid = some fut →
       (resolve_approval pending p).pending = pending.removeId rid
       ∧ (resolve_approval pending p).pending.lookupId rid = none)
    ∧ (∀ (pending : Pending) (p : ResolvePayload) (rid : String),
       p.requestId = some rid → ¬ rid = "" → pending.lookupId rid = none →
       resolve_approval pending p =
         { pending := pending,
           events := [Event.errorEv ("No pending approval for " ++ rid)],
           delivered := none, warned := false })
    ∧ (∀ (pending : Pending) (p : ResolvePayload) (rid : String),
       p.requestId = some rid → ¬ rid = "" →
       pending.lookupId rid = some { done := true } →
       (resolve_approval pending p).delivered = none
       ∧ (resolve_approval pending p).warned = true
       ∧ (resolve_approval pending p).events = []) := by
  refine ⟨?_, ?_, ?_⟩
  · intro pending p rid fut hrid hne hfound
    unfold resolve_approval
    rw [hrid]
    simp only [hne, if_false, hfound]
    cases fut.done <;> simp [lookupId_removeId]
  · intro pending p rid hrid hne hnone
    unfold resolve_approval
    rw [hrid]
    simp [hne, hnone]
  · intro pending p rid hrid hne hfound
    unfold resolve_approval
    rw [hrid]
    simp [hne, hfound]

/-- C6 witness: the three clauses on a concrete pending table. -/
theorem c6_resolve_approval_discipline_witness :
    (Pending.lookupId
        (resolve_approval [("r1", { done := false })]
          { requestId := some "r1", approved := true }).pending "r1" = none)
    ∧ (resolve_approval [("r1", { done := false })] { requestId := some "zz" } =
       { pending := [("r1", { done := false })],
         events := [Event.errorEv "No pending approval for zz"],
         delivered := none, warned := false })
    ∧ ((resolve_approval [("r2", { done := true })] { requestId := some "r2" }).warned = true) := by
  refine ⟨?_, ?_, ?_⟩
  · exact (c6_resolve_approval_discipline.1 [("r1", { done := false })]
      { requestId := some "r1", approved := true } "r1" { done := false }
      rfl (by decide) (by decide)).2
  · exact c6_resolve_approval_discipline.2.1 [("r1", { done := false })]
      { requestId := some "zz" } "zz" rfl (by decide) (by decide)
  · exact (c6_resolve_approval_discipline.2.2 [("r2", { done := true })]
      { requestId := some "r2" } "r2" rfl (by decide) (by decide)).2.1


theorem execute_shell_ok_ne (args : ToolArgs) (o : ShellOracle) (tbl : List String) (r : String)
    (h : (execute_shell args o tbl).output = Except.ok r) : ¬ r = "" := by
  unfold execute_shell at h
  split at h
  case h_1 => simp at h
  case h_2 =>
    split at h
    · simp at h
    · simp only [Except.ok.injEq] at h
      split at h
      · split at h
        · rw [← h]; decide
        next hne => rw [← h]; exact hne
      · split at h
        · rw [← h]; decide
        next hne => rw [← h]; exact hne

theorem append_ne_empty (a b : String) (h : ¬ a = "") : ¬ (a ++ b) = "" := by
  cases a with | mk da =>
  cases b with | mk db =>
  intro hc
  apply h
  have hdd : da ++ db = [] := congrArg String.data hc
  have hda : da = [] := (List.append_eq_nil.mp hdd).1
  rw [hda]

theorem finish_tool_ok (evs : List Event) (t : ToolOut) (r : String)
    (h : (finish_tool evs t).outcome = Except.ok r) :
    t.result = Except.ok r
    ∨ ∃ e, t.result = Except.error (Err.toolError e) ∧ r = "Tool execution failed: " ++ e := by
  unfold finish_tool at h
  split at h
  next output heq =>
    left
    simp only [Except.ok.injEq] at h
    rw [heq, h]
  next e heq =>
    right
    simp only [Except.ok.injEq] at h
    exact ⟨e, heq, h.symm⟩
  next e heq => simp at h

theorem write_file_ok_ne (wd : List String) (args : ToolArgs) (fs : FS) (r : String)
    (h : (write_file wd args fs).1 = Except.ok r) : ¬ r = "" := by
  unfold write_file at h
  split at h
  case h_1 => simp at h
  case h_2 =>
    split at h
    case h_1 => simp at h
    case h_2 =>
      simp only [Except.ok.injEq] at h
      rw [← h]
      exact append_ne_empty _ _ (append_ne_empty _ _ (append_ne_empty _ _ (append_ne_empty _ _ (by decide))))

theorem delete_path_ok_ne (wd : List String) (args : ToolArgs) (fs : FS) (r : String)
    (h : (delete_path wd args fs).1 = Except.ok r) : ¬ r = "" := by
  unfold delete_path at h
  split at h
  case h_1 => simp at h
  case h_2 =>
    split at h
    · simp at h
    · split at h
      · split at h
        · split at h
          case h_1 => simp at h
          case h_2 =>
            split at h
            case h_1 => simp at h
            case h_2 =>
              simp only [Except.ok.injEq] at h
              rw [← h]
              exact append_ne_empty _ _ (append_ne_empty _ _ (by decide))
        · split at h
          case h_1 => simp at h
          case h_2 =>
            simp only [Except.ok.injEq] at h
            rw [← h]
            exact append_ne_empty _ _ (append_ne_empty _ _ (by decide))
      · simp only [Except.ok.injEq] at h
        rw [← h]
        exact append_ne_empty _ _ (append_ne_empty _ _ (by decide))

theorem run_tool_ok_ne (cfg : BackendConfig) (name : String) (args : ToolArgs) (w : World)
    (r : String) (h1 : ¬ name = "read_file") (h2 : ¬ name = "list_directory")
    (h : (run_tool cfg name args w).result = Except.ok r) : ¬ r = "" := by
  unfold run_tool at h
  split at h
  case isTrue => exact execute_shell_ok_ne _ _ _ _ h
  case isFalse =>
    split at h
    case isTrue => exact write_file_ok_ne _ _ _ _ h
    case isFalse =>
      split at h
      case isTrue => exact delete_path_ok_ne _ _ _ _ h
      case isFalse =>
        simp only [Except.ok.injEq] at h
        rw [← h]
        exact append_ne_empty _ _ (by decide)

/-- C7 counterexample: the claim says the textual result fed back to the
model is always a non-empty string, but `read_file` on an empty file
returns the empty string as the tool output. -/
theorem c7_empty_read_counterexample :
    (handle_tool_call sampleCfg "read_file" { path := some "e.txt" } "p" sampleWorld).outcome =
      Except.ok "" := by
  decide

/-- C7 amended: for every tool call whose name is not `read_file` or
`list_directory`, the textual result returned to the model — on success,
denial, or failure — is a non-empty string; `read_file` and
`list_directory` return the raw file content or listing, which is empty
for an empty file or an empty directory (their failure results are still
non-empty). -/
theorem c7_tool_result_nonempty_amended :
    ∀ (cfg : BackendConfig) (name : String) (args : ToolArgs) (pid : String) (w : World)
      (r : String),
      (handle_tool_call cfg name args pid w).outcome = Except.ok r →
      ¬ name = "read_file" → ¬ name = "list_directory" → ¬ r = "" := by
  intro cfg name args pid w r hok h1 h2
  unfold handle_tool_call at hok
  split at hok
  case isTrue =>
    dsimp only at hok
    split at hok
    case isTrue =>
      simp only [Except.ok.injEq] at hok
      rw [← hok]; decide
    case isFalse =>
      rcases finish_tool_ok _ _ _ hok with hres | ⟨e, _, rfl⟩
      · exact run_tool_ok_ne _ _ _ _ _ h1 h2 hres
      · exact append_ne_empty _ _ (by decide)
  case isFalse =>
    rcases finish_tool_ok _ _ _ hok with hres | ⟨e, _, rfl⟩
    · exact run_tool_ok_ne _ _ _ _ _ h1 h2 hres
    · exact append_ne_empty _ _ (by decide)

/-- C7 witness: the unknown-tool result on the sample backend. -/
theorem c7_tool_result_nonempty_amended_witness :
    ¬ ("Unknown tool: nope" : String) = "" :=
  c7_tool_result_nonempty_amended sampleCfg "nope" {} "p" sampleWorld
    "Unknown tool: nope" (by decide) (by decide) (by decide)

theorem isDir_exists (fs : FS) (p : List String) (h : fs.isDir p = true) :
    fs.exists_ p = true := by
  unfold FS.isDir at h
  unfold FS.exists_
  split at h
  next heq => rw [heq]; rfl
  next => simp at h

theorem delete_path_nonempty_dir (wd : List String) (args : ToolArgs) (fs : FS)
    (target : List String)
    (hres : resolve_path wd args.path = Except.ok target)
    (hrec : args.recursive.getD false = false)
    (hdir : fs.isDir target = true)
    (hch : fs.hasChild target = true) :
    delete_path wd args fs =
      (Except.error (Err.osError ("Directory not empty: " ++ renderPath target)), fs, []) := by
  unfold delete_path
  rw [hres]
  have hex : fs.exists_ target = true := isDir_exists fs target hdir
  simp [hex, hdir, hrec, FS.rmdirPath, hch]

/-- C8 amended: a `ToolExecutionError` raised by any tool (path outside
workspace, missing file, non-string content) is caught locally by
`handle_tool_call` and converted to a textual failure result plus an
error event and a marked end event — the prompt continues. But
`delete_path(dir, recursive=false)` on a non-empty directory raises a
plain `OSError` from `Path.rmdir`, which the dispatcher's
`except ToolExecutionError` does not catch: the call deletes nothing,
emits no error or end event, and the exception escapes the dispatcher,
erroring the prompt instead of being fed back to the model. -/
theorem c8_tool_errors_amended :
    (∀ (cfg : BackendConfig) (name : String) (args : ToolArgs) (pid : String) (w : World)
       (e : String),
       approvalRequired cfg name = false →
       (run_tool cfg name args w).result = Except.error (Err.toolError e) →
       handle_tool_call cfg name args pid w =
         { outcome := Except.ok ("Tool execution failed: " ++ e),
           w := (run_tool cfg name args w).w,
           events := [Event.toolCallStart name pid] ++ (run_tool cfg name args w).events ++
             [Event.errorEv e,
              Event.toolCallEnd ("Tool execution failed: " ++ e) (some e)] })
    ∧ (∀ (cfg : BackendConfig) (args : ToolArgs) (pid : String) (w : World)
         (target : List String),
       approvalRequired cfg "delete_path" = false →
       resolve_path cfg.workdir args.path = Except.ok target →
       args.recursive.getD false = false →
       w.fs.isDir target = true →
       w.fs.hasChild target = true →
       (handle_tool_call cfg "delete_path" args pid w).outcome =
         Except.error (Err.osError ("Directory not empty: " ++ renderPath target))
       ∧ (handle_tool_call cfg "delete_path" args pid w).w.fs = w.fs
       ∧ (handle_tool_call cfg "delete_path" args pid w).events =
         [Event.toolCallStart "delete_path" pid]) := by
  constructor
  · intro cfg name args pid w e hreq hres
    unfold handle_tool_call
    simp only [hreq, Bool.false_eq_true, if_false]
    unfold finish_tool
    rw [hres]
  · intro cfg args pid w target hreq hres hrec hdir hch
    have hd := delete_path_nonempty_dir cfg.workdir args w.fs target hres hrec hdir hch
    have hrt : run_tool cfg "delete_path" args w =
        { result := (delete_path cfg.workdir args w.fs).1,
          w := { w with fs := (delete_path cfg.workdir args w.fs).2.1 },
          events := (delete_path cfg.workdir args w.fs).2.2 } := rfl
    unfold handle_tool_call
    simp only [hreq, Bool.false_eq_true, if_false]
    rw [hrt, hd]
    unfold finish_tool
    simp

/-- C8 counterexample: deleting the non-empty directory `d` without the
recursive flag leaves an escaping `OSError` as the outcome — no textual
failure result, no error event, no tool-call-end event — refuting the
claim that this expected error is caught locally by the Tool Dispatcher
and never crashes the prompt. Nothing is deleted. -/
theorem c8_uncaught_oserror_counterexample :
    (handle_tool_call { sampleCfg with confirm_writes := false } "delete_path"
        { path := some "d" } "p" sampleWorld).outcome =
      Except.error (Err.osError "Directory not empty: /ws/d")
    ∧ (handle_tool_call { sampleCfg with confirm_writes := false } "delete_path"
        { path := some "d" } "p" sampleWorld).events = [Event.toolCallStart "delete_path" "p"]
    ∧ (handle_tool_call { sampleCfg with confirm_writes := false } "delete_path"
        { path := some "d" } "p" sampleWorld).w.fs = sampleFs := by
  decide

/-- C8 witness: the caught missing-file error and the untouched
filesystem of the non-empty-directory delete. -/
theorem c8_tool_errors_amended_witness :
    (handle_tool_call sampleCfg "read_file" { path := some "nope.txt" } "p" sampleWorld =
      { outcome := Except.ok ("Tool execution failed: " ++ "File does not exist: /ws/nope.txt"),
        w := (run_tool sampleCfg "read_file" { path := some "nope.txt" } sampleWorld).w,
        events := [Event.toolCallStart "read_file" "p"] ++
          (run_tool sampleCfg "read_file" { path := some "nope.txt" } sampleWorld).events ++
          [Event.errorEv "File does not exist: /ws/nope.txt",
           Event.toolCallEnd ("Tool execution failed: " ++ "File does not exist: /ws/nope.txt")
             (some "File does not exist: /ws/nope.txt")] })
    ∧ (handle_tool_call { sampleCfg with confirm_writes := false } "delete_path"
        { path := some "d" } "p" sampleWorld).w.fs = sampleWorld.fs := by
  constructor
  · exact c8_tool_errors_amended.1 sampleCfg "read_file" { path := some "nope.txt" } "p"
      sampleWorld "File does not exist: /ws/nope.txt" (by decide) (by decide)
  · exact (c8_tool_errors_amended.2 { sampleCfg with confirm_writes := false }
      { path := some "d" } "p" sampleWorld ["ws", "d"]
      (by decide) (by decide) (by decide) (by decide) (by decide)).2.1

theorem neutral_counts (evs : List Event) (h : evs.all neutralEv = true) :
    countStart evs = 0 ∧ countEnd evs = 0 ∧ finalIds evs = [] := by
  induction evs with
  | nil => exact ⟨rfl, rfl, rfl⟩
  | cons e rest ih =>
    simp only [List.all_cons, Bool.and_eq_true] at h
    obtain ⟨he, hrest⟩ := h
    obtain ⟨h1, h2, h3⟩ := ih hrest
    cases e <;> simp_all [countStart, countEnd, finalIds, neutralEv, isStartEv, isEndEv,
      List.countP_cons, List.filterMap]

theorem all_map_neutral {α : Type} (l : List α) (f : α → Event)
    (hf : ∀ x, neutralEv (f x) = true) : (l.map f).all neutralEv = true := by
  induction l with
  | nil => rfl
  | cons x rest ih => simp [hf, ih]

theorem execute_shell_events_neutral (args : ToolArgs) (o : ShellOracle) (tbl : List String) :
    (execute_shell args o tbl).events.all neutralEv = true := by
  unfold execute_shell
  split
  · rfl
  · split
    · rfl
    · simp only [List.all_append, Bool.and_eq_true]
      exact ⟨⟨⟨rfl, all_map_neutral _ _ (fun _ => rfl), all_map_neutral _ _ (fun _ => rfl)⟩,
        by split <;> rfl⟩, rfl⟩

theorem read_file_events_neutral (wd : List String) (args : ToolArgs) (fs : FS) :
    (read_file wd args fs).2.all neutralEv = true := by
  unfold read_file
  repeat' split
  all_goals rfl

theorem write_file_events_neutral (wd : List String) (args : ToolArgs) (fs : FS) :
    (write_file wd args fs).2.2.all neutralEv = true := by
  unfold write_file
  repeat' split
  all_goals rfl

theorem list_directory_events_neutral (wd : List String) (args : ToolArgs) (fs : FS) :
    (list_directory wd args fs).2.all neutralEv = true := by
  unfold list_directory
  split
  all_goals dsimp only
  all_goals repeat' split
  all_goals rfl

theorem delete_path_events_neutral (wd : List String) (args : ToolArgs) (fs : FS) :
    (delete_path wd args fs).2.2.all neutralEv = true := by
  unfold delete_path
  repeat' split
  all_goals rfl

theorem run_tool_events_neutral (cfg : BackendConfig) (name : String) (args : ToolArgs)
    (w : World) : (run_tool cfg name args w).events.all neutralEv = true := by
  unfold run_tool
  split
  · exact execute_shell_events_neutral _ _ _
  · split
    · exact read_file_events_neutral _ _ _
    · split
      · exact write_file_events_neutral _ _ _
      · split
        · exact list_directory_events_neutral _ _ _
        · split
          · exact delete_path_events_neutral _ _ _
          · rfl

theorem countStart_append (a b : List Event) :
    countStart (a ++ b) = countStart a + countStart b := by
  simp [countStart, List.countP_append]

theorem countEnd_append (a b : List Event) :
    countEnd (a ++ b) = countEnd a + countEnd b := by
  simp [countEnd, List.countP_append]

theorem finalIds_append (a b : List Event) :
    finalIds (a ++ b) = finalIds a ++ finalIds b := by
  simp [finalIds, List.filterMap_append]

theorem finish_tool_events (evs : List Event) (t : ToolOut) (r : String)
    (hok : (finish_tool evs t).outcome = Except.ok r)
    (ht : t.events.all neutralEv = true) :
    countStart (finish_tool evs t).events = countStart evs
    ∧ countEnd (finish_tool evs t).events = countEnd evs + 1
    ∧ finalIds (finish_tool evs t).events = finalIds evs := by
  obtain ⟨h1, h2, h3⟩ := neutral_counts _ ht
  rcases ht' : t.result with e | r'
  · cases e with
    | toolError m =>
      simp only [finish_tool, ht']
      refine ⟨?_, ?_, ?_⟩
      · rw [countStart_append, countStart_append, h1]; rfl
      · rw [countEnd_append, countEnd_append, h2]; rfl
      · rw [finalIds_append, finalIds_append, h3]; simp [finalIds]
    | osError m =>
      unfold finish_tool at hok
      rw [ht'] at hok
      simp at hok
  · simp only [finish_tool, ht']
    refine ⟨?_, ?_, ?_⟩
    · rw [countStart_append, countStart_append, h1]; rfl
    · rw [countEnd_append, countEnd_append, h2]; rfl
    · rw [finalIds_append, finalIds_append, h3]; simp [finalIds]

theorem handle_ok_events (cfg : BackendConfig) (name : String) (args : ToolArgs) (pid : String)
    (w : World) (r : String)
    (h : (handle_tool_call cfg name args pid w).outcome = Except.ok r) :
    countStart (handle_tool_call cfg name args pid w).events = 1
    ∧ countEnd (handle_tool_call cfg name args pid w).events = 1
    ∧ finalIds (handle_tool_call cfg name args pid w).events = [] := by
  unfold handle_tool_call at h ⊢
  by_cases hreq : approvalRequired cfg name = true
  · simp only [if_pos hreq] at h ⊢
    by_cases happ : ¬ (w.decisions.headD { approved := true }).approved = true
    · simp only [if_pos happ] at h ⊢
      exact ⟨rfl, rfl, rfl⟩
    · simp only [if_neg happ] at h ⊢
      obtain ⟨e1, e2, e3⟩ := finish_tool_events _ _ _ h (run_tool_events_neutral _ _ _ _)
      exact ⟨by rw [e1]; rfl, by rw [e2]; rfl, by rw [e3]; rfl⟩
  · simp only [if_neg hreq] at h ⊢
    obtain ⟨e1, e2, e3⟩ := finish_tool_events _ _ _ h (run_tool_events_neutral _ _ _ _)
    exact ⟨by rw [e1]; rfl, by rw [e2]; rfl, by rw [e3]; rfl⟩

theorem tokenEvents_neutral (rid : String) (ds : List String) :
    countStart (tokenEvents rid ds) = 0 ∧ countEnd (tokenEvents rid ds) = 0
    ∧ finalIds (tokenEvents rid ds) = [] := by
  refine neutral_counts _ ?_
  unfold tokenEvents
  exact all_map_neutral _ _ (fun _ => rfl)

theorem run_tool_uses_spec (cfg : BackendConfig) (rid : String) (tus : List ToolUse) :
    ∀ (w : World) (rs : List ToolResult) (w1 : World) (evs : List Event),
      run_tool_uses cfg rid tus w = Except.ok (rs, w1, evs) →
      rs.length = tus.length ∧ countStart evs = tus.length
      ∧ countEnd evs = tus.length ∧ finalIds evs = [] := by
  induction tus with
  | nil =>
    intro w rs w1 evs h
    unfold run_tool_uses at h
    simp only [Except.ok.injEq, Prod.mk.injEq] at h
    obtain ⟨h1, h2, h3⟩ := h
    subst h1; subst h3
    exact ⟨rfl, rfl, rfl, rfl⟩
  | cons tu rest ih =>
    intro w rs w1 evs h
    unfold run_tool_uses at h
    dsimp only at h
    split at h
    · simp at h
    next out heq =>
      split at h
      · simp at h
      next rs' w'' evs' heq2 =>
        simp only [Except.ok.injEq, Prod.mk.injEq] at h
        obtain ⟨hrs, hw, hevs⟩ := h
        subst hrs; subst hw; subst hevs
        obtain ⟨s1, s2, s3⟩ := handle_ok_events cfg tu.name tu.args rid w out heq
        obtain ⟨l1, l2, l3, l4⟩ := ih _ _ _ _ heq2
        refine ⟨by simp [l1], ?_, ?_, ?_⟩
        · rw [countStart_append, s1, l2]
          simp [Nat.add_comm]
        · rw [countEnd_append, s2, l3]
          simp [Nat.add_comm]
        · rw [finalIds_append, s3, l4]
          rfl


theorem lastRoundText_cons (r : Round) (rest : List Round) (h : ¬ rest = []) :
    lastRoundText (r :: rest) = lastRoundText rest := by
  cases rest with
  | nil => exact absurd rfl h
  | cons r2 l => simp [lastRoundText, List.getLastD_cons]

theorem recursion_spec (cfg : BackendConfig) (rounds : List Round) :
    ∀ (ids : List String) (w : World) (history : List Turn) (h2 : List Turn) (w2 : World)
      (evs : List Event),
      continuesThenStops rounds = true →
      rounds.length ≤ ids.length →
      handle_tool_results_recursively cfg rounds ids w history = Except.ok (h2, w2, evs) →
      countStart evs = sumToolUses rounds ∧ countEnd evs = sumToolUses rounds
      ∧ finalIds evs = ids.take rounds.length
      ∧ h2 = history ++
          (if lastRoundText rounds = "" then [] else [⟨"assistant", lastRoundText rounds⟩]) := by
  induction rounds with
  | nil =>
    intro ids w history h2 w2 evs hcts
    simp [continuesThenStops] at hcts
  | cons r rest ih =>
    intro ids w history h2 w2 evs hcts hlen h
    cases ids with
    | nil => simp at hlen
    | cons i ids' =>
      unfold handle_tool_results_recursively at h
      dsimp only at h
      split at h
      · simp at h
      next rs w1 tevs heq =>
        obtain ⟨l1, l2, l3, l4⟩ := run_tool_uses_spec cfg i r.toolUses w rs w1 tevs heq
        obtain ⟨t1, t2, t3⟩ := tokenEvents_neutral i r.deltas
        cases rest with
        | nil =>
          have htu : r.toolUses.isEmpty = true := by
            simpa [continuesThenStops] using hcts
          have hrs : rs = [] := by
            apply List.length_eq_zero.mp
            rw [l1]
            cases hu : r.toolUses with
            | nil => rfl
            | cons a l => rw [hu] at htu; simp [List.isEmpty] at htu
          subst hrs
          simp only [List.isEmpty_nil, if_true] at h
          simp only [Except.ok.injEq, Prod.mk.injEq] at h
          obtain ⟨hh, hw, hevs⟩ := h
          subst hh; subst hevs
          have htu0 : r.toolUses.length = 0 := by
            cases hu : r.toolUses with
            | nil => rfl
            | cons a l => rw [hu] at htu; simp [List.isEmpty] at htu
          refine ⟨?_, ?_, ?_, ?_⟩
          · rw [countStart_append, countStart_append, t1, l2, htu0]
            simp [sumToolUses, htu0, countStart, isStartEv, List.countP_cons]
          · rw [countEnd_append, countEnd_append, t2, l3, htu0]
            simp [sumToolUses, htu0, countEnd, isEndEv, List.countP_cons]
          · rw [finalIds_append, finalIds_append, t3, l4]
            rfl
          · simp [lastRoundText]
        | cons r2 lrest =>
          have hcts2 : ¬ r.toolUses.isEmpty = true ∧ continuesThenStops (r2 :: lrest) = true := by
            simpa [continuesThenStops, Bool.and_eq_true] using hcts
          have hrs : ¬ rs.isEmpty = true := by
            cases hrs0 : rs with
            | nil =>
              subst hrs0
              simp at l1
              have : r.toolUses = [] := by
                cases hu : r.toolUses with
                | nil => rfl
                | cons a l => rw [hu] at l1; simp at l1
              rw [this] at hcts2
              simp [List.isEmpty] at hcts2
            | cons a l => subst hrs0; simp [List.isEmpty]
          simp only [if_neg hrs] at h
          split at h
          · simp at h
          next h2' w2' evs2 heq2 =>
            simp only [Except.ok.injEq, Prod.mk.injEq] at h
            obtain ⟨hh, hw, hevs⟩ := h
            subst hh; subst hevs
            have hlen2 : (r2 :: lrest).length ≤ ids'.length := by
              simpa using Nat.le_of_succ_le_succ hlen
            obtain ⟨s1, s2, s3, s4⟩ := ih ids' w1 history h2' w2' evs2 hcts2.2 hlen2 heq2
            refine ⟨?_, ?_, ?_, ?_⟩
            · rw [countStart_append, countStart_append, countStart_append, t1, l2, s1]
              simp [sumToolUses, countStart, isStartEv, List.countP_cons]
            · rw [countEnd_append, countEnd_append, countEnd_append, t2, l3, s2]
              simp [sumToolUses, countEnd, isEndEv, List.countP_cons]
            · rw [finalIds_append, finalIds_append, finalIds_append, t3, l4, s3]
              simp [List.take_succ_cons]
              rfl
            · rw [s4, lastRoundText_cons r (r2 :: lrest) (by simp)]

/-- C3 counterexample: with one continuation round, the assistant turn
(carrying the last round text) is appended to Conversation History
before the user turn — the recursion's base case appends it while
`_process_prompt_async` appends the user turn only afterwards — and
when the last round's stripped text is empty no assistant turn is
appended at all, refuting both the claimed user-then-assistant order
and the claimed unconditional assistant append. -/
theorem c3_append_order_counterexample :
    (process_prompt_async sampleCfg "p" "q"
        [{ deltas := ["t1"], toolUses := [sampleReadUse] }, { deltas := ["ans"] }] ["f1"]
        sampleWorld [] =
      Except.ok ([⟨"assistant", "ans"⟩, ⟨"user", "q"⟩], sampleWorld,
        [Event.tokenEv "p" "t1", Event.toolCallStart "read_file" "p",
         Event.toolLog "read a.txt (2 bytes)", Event.toolCallEnd "hi" none,
         Event.tokenEv "f1" "ans", Event.finalEv "f1" "ans", Event.finalEv "p" "t1"]))
    ∧ ¬ ([⟨"assistant", "ans"⟩, ⟨"user", "q"⟩] : List Turn) =
        [⟨"user", "q"⟩, ⟨"assistant", "ans"⟩]
    ∧ (process_prompt_async sampleCfg "p" "q"
        [{ deltas := ["t1"], toolUses := [sampleReadUse] }, { deltas := [] }] ["f1"]
        sampleWorld [] =
      Except.ok ([⟨"user", "q"⟩], sampleWorld,
        [Event.tokenEv "p" "t1", Event.toolCallStart "read_file" "p",
         Event.toolLog "read a.txt (2 bytes)", Event.toolCallEnd "hi" none,
         Event.finalEv "f1" "", Event.finalEv "p" "t1"])) := by
  refine ⟨by decide, by decide, by decide⟩

/-- C3 amended: for every completed top-level prompt, exactly one user
turn is appended to Conversation History, and exactly one assistant
turn when the final round's stripped text is non-empty (none when it is
empty); the assistant turn carries only the last round's text. With no
continuation rounds the order is user then assistant; when continuation
rounds occurred the assistant turn is appended before the user turn. -/
theorem c3_history_amended :
    ∀ (cfg : BackendConfig) (pid text : String) (rounds : List Round) (ids : List String)
      (w : World) (history : List Turn) (h1 : List Turn) (w1 : World) (evs : List Event),
      continuesThenStops rounds = true →
      rounds.length ≤ ids.length + 1 →
      process_prompt_async cfg pid text rounds ids w history = Except.ok (h1, w1, evs) →
      h1 = expectedHistory history text rounds := by
  intro cfg pid text rounds ids w history h1 w1 evs hcts hlen h
  cases rounds with
  | nil => simp [continuesThenStops] at hcts
  | cons r0 rest =>
    unfold process_prompt_async at h
    dsimp only at h
    split at h
    · simp at h
    next rs w1' tevs heq =>
      obtain ⟨l1, _, _, _⟩ := run_tool_uses_spec cfg pid r0.toolUses w rs w1' tevs heq
      cases rest with
      | nil =>
        have htu : r0.toolUses.isEmpty = true := by
          simpa [continuesThenStops] using hcts
        have hrs : rs = [] := by
          apply List.length_eq_zero.mp
          rw [l1]
          cases hu : r0.toolUses with
          | nil => rfl
          | cons a l => rw [hu] at htu; simp [List.isEmpty] at htu
        subst hrs
        simp only [List.isEmpty_nil, if_true] at h
        simp only [Except.ok.injEq, Prod.mk.injEq] at h
        obtain ⟨hh, _, _⟩ := h
        rw [← hh]
        simp [expectedHistory, lastRoundText]
      | cons r2 lrest =>
        have hcts2 : ¬ r0.toolUses.isEmpty = true ∧ continuesThenStops (r2 :: lrest) = true := by
          simpa [continuesThenStops, Bool.and_eq_true] using hcts
        have hrs : ¬ rs.isEmpty = true := by
          cases hrs0 : rs with
          | nil =>
            subst hrs0
            simp at l1
            have hnil : r0.toolUses = [] := by
              cases hu : r0.toolUses with
              | nil => rfl
              | cons a l => rw [hu] at l1; simp at l1
            rw [hnil] at hcts2
            simp [List.isEmpty] at hcts2
          | cons a l => subst hrs0; simp [List.isEmpty]
        simp only [if_neg hrs] at h
        split at h
        · simp at h
        next h2' w2' evs2 heq2 =>
          simp only [Except.ok.injEq, Prod.mk.injEq] at h
          obtain ⟨hh, _, _⟩ := h
          have hlen2 : (r2 :: lrest).length ≤ ids.length := by
            simpa using Nat.le_of_succ_le_succ (by simpa using hlen)
          obtain ⟨_, _, _, s4⟩ :=
            recursion_spec cfg (r2 :: lrest) ids w1' history h2' w2' evs2 hcts2.2 hlen2 heq2
          rw [← hh, s4]
          rw [expectedHistory]
          rw [lastRoundText_cons r0 (r2 :: lrest) (by simp)]
          simp

/-- C3 witness: a single-round prompt appends user then assistant. -/
theorem c3_history_amended_witness :
    ([⟨"user", "q"⟩, ⟨"assistant", "hi"⟩] : List Turn) =
      expectedHistory [] "q" [{ deltas := ["hi"] }] :=
  c3_history_amended sampleCfg "p" "q" [{ deltas := ["hi"] }] [] {} []
    [⟨"user", "q"⟩, ⟨"assistant", "hi"⟩] {}
    [Event.tokenEv "p" "hi", Event.toolLog "Response completed without using tools",
     Event.finalEv "p" "hi"]
    (by decide) (by decide) (by decide)

/-- C9: a provider that issues one tool call in each of three successive
rounds before answering yields exactly 3 tool-call-start/end pairs and
exactly 3 final events tagged with a fresh round identifier distinct
from the prompt id — one per continuation round, each carrying its own
identifier, in order — plus the prompt-id final event emitted last. -/
theorem c9_three_tool_rounds :
    ∀ (cfg : BackendConfig) (pid text : String) (r1 r2 r3 r4 : Round) (i1 i2 i3 : String)
      (w : World) (history : List Turn) (h1 : List Turn) (w1 : World) (evs : List Event),
      r1.toolUses.length = 1 → r2.toolUses.length = 1 → r3.toolUses.length = 1 →
      r4.toolUses = [] →
      ¬ i1 = pid → ¬ i2 = pid → ¬ i3 = pid →
      process_prompt_async cfg pid text [r1, r2, r3, r4] [i1, i2, i3] w history =
        Except.ok (h1, w1, evs) →
      countStart evs = 3 ∧ countEnd evs = 3
      ∧ finalIds evs = [i1, i2, i3, pid]
      ∧ roundFinals pid evs = 3 := by
  intro cfg pid text r1 r2 r3 r4 i1 i2 i3 w history h1 w1 evs hr1 hr2 hr3 hr4 hi1 hi2 hi3 h
  unfold process_prompt_async at h
  dsimp only at h
  split at h
  · simp at h
  next rs w1' tevs heq =>
    obtain ⟨l1, l2, l3, l4⟩ := run_tool_uses_spec cfg pid r1.toolUses w rs w1' tevs heq
    obtain ⟨t1, t2, t3⟩ := tokenEvents_neutral pid r1.deltas
    have hne1 : r1.toolUses.isEmpty = false := by
      cases hu : r1.toolUses with
      | nil => rw [hu] at hr1; simp at hr1
      | cons a l => simp [List.isEmpty]
    have hrs : ¬ rs.isEmpty = true := by
      cases hrs0 : rs with
      | nil =>
        subst hrs0
        rw [hr1] at l1
        simp at l1
      | cons a l => subst hrs0; simp [List.isEmpty]
    simp only [hne1, Bool.false_eq_true, if_false] at h
    simp only [if_neg hrs] at h
    split at h
    · simp at h
    next h2' w2' evs2 heq2 =>
      have e2 : r2.toolUses.isEmpty = false := by
        cases hu : r2.toolUses with
        | nil => rw [hu] at hr2; simp at hr2
        | cons a l => simp [List.isEmpty]
      have e3 : r3.toolUses.isEmpty = false := by
        cases hu : r3.toolUses with
        | nil => rw [hu] at hr3; simp at hr3
        | cons a l => simp [List.isEmpty]
      have hcts : continuesThenStops [r2, r3, r4] = true := by
        simp [continuesThenStops, e2, e3, hr4]
      obtain ⟨s1, s2, s3, s4⟩ :=
        recursion_spec cfg [r2, r3, r4] [i1, i2, i3] w1' history h2' w2' evs2 hcts
          (by simp) heq2
      simp only [Except.ok.injEq, Prod.mk.injEq] at h
      obtain ⟨hh, hw, hevs⟩ := h
      rw [← hevs]
      have hsum : sumToolUses [r2, r3, r4] = 2 := by
        simp [sumToolUses, hr2, hr3, hr4]
      have hfin : finalIds
          (tokenEvents pid r1.deltas ++ tevs ++ [] ++ evs2 ++
            [Event.finalEv pid (pyStrip (String.join r1.deltas))]) = [i1, i2, i3, pid] := by
        rw [finalIds_append, finalIds_append, finalIds_append, finalIds_append, t3, l4, s3]
        rfl
      refine ⟨?_, ?_, hfin, ?_⟩
      · rw [countStart_append, countStart_append, countStart_append, countStart_append,
          t1, l2, hr1, s1, hsum]
        rfl
      · rw [countEnd_append, countEnd_append, countEnd_append, countEnd_append,
          t2, l3, hr1, s2, hsum]
        rfl
      · rw [roundFinals, hfin]
        simp [hi1, hi2, hi3]


/-- C9 witness: the concrete three-tool-round script over the sample
workspace. -/
theorem c9_three_tool_rounds_witness :
    countStart c9Events = 3 ∧ countEnd c9Events = 3
    ∧ finalIds c9Events = ["f1", "f2", "f3", "p"]
    ∧ roundFinals "p" c9Events = 3 :=
  c9_three_tool_rounds sampleCfg "p" "q" c9ToolRound c9ToolRound c9ToolRound c9DoneRound
    "f1" "f2" "f3" sampleWorld []
    [⟨"assistant", "done"⟩, ⟨"user", "q"⟩] sampleWorld c9Events
    (by decide) (by decide) (by decide) (by decide) (by decide) (by decide) (by decide)
    (by decide)
